import Mathlib

/-!
Verification of the NoteWise YouTube-processing backend (main_youtube.py).

The pipeline is embedded shallowly: the external collaborators (the whisper
speech-recognition model, the yt-dlp download tool, and the OpenAI-compatible
chat-completion client) are modelled as an environment record of oracles, and
the request handler `process_youtube` is a pure function of that environment
and the request URL, returning the HTTP outcome together with a trace of the
external operations it invoked and the temporary files left on local storage.
-/

/-- A chat message, as in the `messages` list passed to
`client.chat.completions.create`. -/
structure ChatMessage where
  role : String
  content : String
deriving DecidableEq, Repr

/-- The arguments of one `client.chat.completions.create` call. -/
structure ChatRequest where
  model : String
  messages : List ChatMessage
  max_tokens : Nat
deriving DecidableEq, Repr

/-- The `message` field of a completion choice. -/
structure ChoiceMessage where
  content : String
deriving DecidableEq, Repr

/-- One element of `response.choices`. -/
structure ChatChoice where
  message : ChoiceMessage
deriving DecidableEq, Repr

/-- A chat-completion response, as consumed by the code
(`response.choices[0].message.content`). -/
structure ChatCompletion where
  choices : List ChatChoice
deriving DecidableEq, Repr

/-- The external text-generation capability: a chat request either yields a
completion or raises (the `String` is the Python exception message `str(e)`). -/
def ChatClient : Type := ChatRequest → Except String ChatCompletion

/-- Python `response.choices[0].message.content`: the subscript raises
`IndexError` on an empty `choices` list. -/
def firstChoiceContent (response : ChatCompletion) : Except String String :=
  match response.choices with
  | [] => .error "list index out of range"
  | c :: _ => .ok c.message.content

/-- The model identifier passed to every chat-completion call. -/
def chatModelName : String := "deepseek/deepseek-r1-distill-qwen-32b:free"

/-- The f-string prompt built by `correct_transcript`. -/
def correctPrompt (raw_text : String) : String :=
  "You are a professional transcript editor.\n\nCorrect the following transcript by:\n- Fixing grammar, punctuation, and structure\n- Removing filler words (like \x27um\x27, \x27uh\x27, etc.)\n- Making the transcript readable\n\nTranscript:\n" ++ raw_text ++ "\n"

/-- The f-string prompt built by `summarize_text`. -/
def summarizePrompt (text : String) : String :=
  "Summarize the following transcript into organized, sectioned notes.\n\nInstructions:\n- Use clear **section headings** (bold)\n- List 3–5 bullet points per section\n- Group similar ideas together\n- Be concise and avoid repetition\n\nTranscript:\n" ++ text ++ "\n"

/-- The f-string prompt built by `polish_bullets`. -/
def polishPrompt (summary : String) : String :=
  "Polish the following grouped bullet points to improve structure, clarity, and formatting.\n\nGuidelines:\n- Keep section headers bolded\n- Use clear, concise bullets\n- Ensure spacing and formatting is consistent\n-Make sure the bullet points are considerably smaller and easy to memorize than the summary. \n- Do not use has. Only use bullet points to mark the points.\n\nContent:\n" ++ summary ++ "\n"

/-- The full chat request issued by `correct_transcript`. -/
def correctRequest (raw_text : String) : ChatRequest :=
  { model := chatModelName
    messages := [{ role := "system", content := "You are a transcription corrector." },
                 { role := "user", content := correctPrompt raw_text }]
    max_tokens := 1000 }

/-- The full chat request issued by `summarize_text`. -/
def summarizeRequest (text : String) : ChatRequest :=
  { model := chatModelName
    messages := [{ role := "system", content := "You are an expert summarizer." },
                 { role := "user", content := summarizePrompt text }]
    max_tokens := 1000 }

/-- The full chat request issued by `polish_bullets`. -/
def polishRequest (summary : String) : ChatRequest :=
  { model := chatModelName
    messages := [{ role := "system", content := "You are a bullet point refiner." },
                 { role := "user", content := polishPrompt summary }]
    max_tokens := 1000 }

/-- Embeds `correct_transcript(raw_text)`: one chat-completion call,
returning the first choice content. -/
def correct_transcript (client : ChatClient) (raw_text : String) :
    Except String String := do
  let response ← client (correctRequest raw_text)
  firstChoiceContent response

/-- Embeds `summarize_text(text)`: one chat-completion call, returning the
first choice content. -/
def summarize_text (client : ChatClient) (text : String) :
    Except String String := do
  let response ← client (summarizeRequest text)
  firstChoiceContent response

/-- Embeds `polish_bullets(summary)`: one chat-completion call, returning the
first choice content. -/
def polish_bullets (client : ChatClient) (summary : String) :
    Except String String := do
  let response ← client (polishRequest summary)
  firstChoiceContent response

/-- Python `str.strip()` on ASCII-style whitespace: drop leading and trailing
whitespace characters. -/
def pyStrip (s : String) : String :=
  String.mk (((s.data.dropWhile Char.isWhitespace).reverse.dropWhile
      Char.isWhitespace).reverse)

/-- Helper for `pySplit`: walk the characters, accumulating the current word
(reversed) and emitting it at each whitespace run, as Python `str.split()`
with no separator does. -/
def pySplitAux : List Char → List Char → List String
  | [], acc => if acc.isEmpty then [] else [String.mk acc.reverse]
  | c :: cs, acc =>
      if c.isWhitespace then
        if acc.isEmpty then pySplitAux cs []
        else String.mk acc.reverse :: pySplitAux cs []
      else pySplitAux cs (c :: acc)

/-- Python `str.split()` with no separator: split on whitespace runs,
discarding empty pieces. -/
def pySplit (s : String) : List String :=
  pySplitAux s.data []

/-- The environment of external collaborators for one request: the outcome of
everything outside the repository's own code. `modelLoaded` is whether
`whisper.load_model("base")` succeeded at startup (on failure the global is
the `None` sentinel); `tmpDir` and `uuidStr` are `tempfile.gettempdir()` and
`uuid.uuid4()`; `downloadExitCode` is the yt-dlp exit status (`check=True`
raises on nonzero, `downloadErrMsg` being `str` of that exception);
`transcribe` maps an audio path to the whisper result text or an exception
message; `client` is the chat-completion capability. -/
structure Env where
  modelLoaded : Bool
  tmpDir : String
  uuidStr : String
  downloadExitCode : Nat
  downloadErrMsg : String
  transcribe : String → Except String String
  client : ChatClient

/-- The temporary audio path built by `download_youtube_audio`:
`os.path.join(tempfile.gettempdir(), f"{uuid.uuid4()}.mp3")`. -/
def audio_path (env : Env) : String :=
  env.tmpDir ++ "/" ++ env.uuidStr ++ ".mp3"

/-- Embeds `download_youtube_audio(url)`: runs yt-dlp into the temp path with
`check=True`; a non-zero exit raises `CalledProcessError`, otherwise the temp
path is returned. -/
def download_youtube_audio (env : Env) (url : String) :
    Except String String :=
  if env.downloadExitCode ≠ 0 then .error env.downloadErrMsg
  else .ok (audio_path env)

/-- An invocation of one of the external operations, recorded in order. -/
inductive Event where
  | downloadCall (url : String)
  | transcribeCall (path : String)
  | removeFileCall (path : String)
  | correctCall (text : String)
  | summarizeCall (text : String)
  | polishCall (text : String)
deriving DecidableEq, Repr

/-- The HTTP outcome of a request: a 200 JSON object (an ordered list of
key-value pairs, as the dict literals in the code), or a raised
`HTTPException` with a status code and detail string. -/
inductive HttpOutcome where
  | ok (body : List (String × String))
  | httpError (status : Nat) (detail : String)
deriving DecidableEq, Repr

/-- The observable result of one request: the HTTP outcome, the ordered trace
of external operations invoked, and the temporary files this request leaves
on local storage when it finishes. -/
structure RunResult where
  response : HttpOutcome
  events : List Event
  files : List String
deriving DecidableEq, Repr

/-- The fixed degraded-content message returned on the short-transcript
path. -/
def degradedMessage : String :=
  "The audio is too corrupted or noisy to extract useful content."

/-- The detail string of the generic pipeline-boundary handler:
`f"YouTube pipeline failed: {str(e)}"`. -/
def pipelineFailedDetail (e : String) : String :=
  "YouTube pipeline failed: " ++ e

/-- The request handler `process_youtube`, embedding main_youtube.py lines
123–153: model-availability check, download, transcription, deletion of the
temp file, the 5-word quality gate, and the three refinement stages, with
every exception after the model check caught by the generic handler. -/
def process_youtube (env : Env) (url : String) : RunResult :=
  if env.modelLoaded = false then
    { response := .httpError 500 "Whisper model not loaded"
      events := []
      files := [] }
  else
    let path := audio_path env
    match download_youtube_audio env url with
    | .error e =>
        { response := .httpError 500 (pipelineFailedDetail e)
          events := [.downloadCall url]
          files := [] }
    | .ok audioPath =>
        match env.transcribe audioPath with
        | .error e =>
            { response := .httpError 500 (pipelineFailedDetail e)
              events := [.downloadCall url, .transcribeCall audioPath]
              files := [audioPath] }
        | .ok text =>
            let raw_transcript := pyStrip text
            let ev0 : List Event :=
              [.downloadCall url, .transcribeCall path, .removeFileCall path]
            if raw_transcript = "" ∨ (pySplit raw_transcript).length < 5 then
              { response := .ok [("polished_summary", degradedMessage)]
                events := ev0
                files := [] }
            else
              match correct_transcript env.client raw_transcript with
              | .error e =>
                  { response := .httpError 500 (pipelineFailedDetail e)
                    events := ev0 ++ [.correctCall raw_transcript]
                    files := [] }
              | .ok corrected =>
                  match summarize_text env.client corrected with
                  | .error e =>
                      { response := .httpError 500 (pipelineFailedDetail e)
                        events := ev0 ++ [.correctCall raw_transcript,
                                          .summarizeCall corrected]
                        files := [] }
                  | .ok summary =>
                      match polish_bullets env.client summary with
                      | .error e =>
                          { response := .httpError 500 (pipelineFailedDetail e)
                            events := ev0 ++ [.correctCall raw_transcript,
                                              .summarizeCall corrected,
                                              .polishCall summary]
                            files := [] }
                      | .ok polished =>
                          { response := .ok [("summary", summary),
                                             ("polished_summary", polished)]
                            events := ev0 ++ [.correctCall raw_transcript,
                                              .summarizeCall corrected,
                                              .polishCall summary]
                            files := [] }

/-- A chat client that always answers with a single fixed choice. -/
def okClient : ChatClient :=
  fun _ => .ok { choices := [{ message := { content := "generated" } }] }

/-- Concrete environment: everything succeeds, transcript long enough. -/
def envHappy : Env :=
  { modelLoaded := true
    tmpDir := "/tmp"
    uuidStr := "u1"
    downloadExitCode := 0
    downloadErrMsg := ""
    transcribe := fun _ => .ok " alpha beta gamma delta epsilon "
    client := okClient }

/-- Concrete environment: transcription yields a one-word transcript. -/
def envShort : Env :=
  { modelLoaded := true
    tmpDir := "/tmp"
    uuidStr := "u2"
    downloadExitCode := 0
    downloadErrMsg := ""
    transcribe := fun _ => .ok "hi"
    client := okClient }

/-- Concrete environment: yt-dlp exits with status 1. -/
def envFetchFail : Env :=
  { modelLoaded := true
    tmpDir := "/tmp"
    uuidStr := "u3"
    downloadExitCode := 1
    downloadErrMsg := "boom"
    transcribe := fun _ => .ok "unused"
    client := okClient }

/-- Concrete environment: download succeeds, transcription raises. -/
def envTranscribeFail : Env :=
  { modelLoaded := true
    tmpDir := "/tmp"
    uuidStr := "u4"
    downloadExitCode := 0
    downloadErrMsg := ""
    transcribe := fun _ => .error "boom"
    client := okClient }

/-- Concrete environment: the whisper model failed to load at startup. -/
def envNoModel : Env :=
  { modelLoaded := false
    tmpDir := "/tmp"
    uuidStr := "u5"
    downloadExitCode := 0
    downloadErrMsg := ""
    transcribe := fun _ => .ok "unused"
    client := okClient }

/-- Characterization of a run when the whisper model failed to load: the
model-availability check raises before anything else happens. -/
theorem run_noModel (env : Env) (url : String) (hm : env.modelLoaded = false) :
    process_youtube env url =
      { response := .httpError 500 "Whisper model not loaded"
        events := []
        files := [] } := by
  unfold process_youtube
  simp [hm]

/-- Characterization of a run when yt-dlp exits non-zero: the raised
`CalledProcessError` is caught by the generic handler. -/
theorem run_fetchFail (env : Env) (url : String)
    (hm : env.modelLoaded = true) (hd : env.downloadExitCode ≠ 0) :
    process_youtube env url =
      { response := .httpError 500 (pipelineFailedDetail env.downloadErrMsg)
        events := [.downloadCall url]
        files := [] } := by
  unfold process_youtube download_youtube_audio
  simp [hm, hd]

/-- Characterization of a run when transcription raises: the audio file is
left on local storage. -/
theorem run_transcribeFail (env : Env) (url e : String)
    (hm : env.modelLoaded = true) (hd : env.downloadExitCode = 0)
    (ht : env.transcribe (audio_path env) = .error e) :
    process_youtube env url =
      { response := .httpError 500 (pipelineFailedDetail e)
        events := [.downloadCall url, .transcribeCall (audio_path env)]
        files := [audio_path env] } := by
  unfold process_youtube download_youtube_audio
  simp [hm, hd, ht]

/-- Characterization of a run that hits the 5-word quality gate. -/
theorem run_degraded (env : Env) (url text : String)
    (hm : env.modelLoaded = true) (hd : env.downloadExitCode = 0)
    (ht : env.transcribe (audio_path env) = .ok text)
    (hq : pyStrip text = "" ∨ (pySplit (pyStrip text)).length < 5) :
    process_youtube env url =
      { response := .ok [("polished_summary", degradedMessage)]
        events := [.downloadCall url, .transcribeCall (audio_path env),
                   .removeFileCall (audio_path env)]
        files := [] } := by
  unfold process_youtube download_youtube_audio
  simp only [hm, hd, ht, ne_eq, not_true_eq_false, Bool.true_eq_false, if_false,
    reduceIte]
  rw [if_pos hq]

/-- Characterization of a fully successful run. -/
theorem run_completed (env : Env) (url text corrected summary polished : String)
    (hm : env.modelLoaded = true) (hd : env.downloadExitCode = 0)
    (ht : env.transcribe (audio_path env) = .ok text)
    (hq : ¬(pyStrip text = "" ∨ (pySplit (pyStrip text)).length < 5))
    (hc : correct_transcript env.client (pyStrip text) = .ok corrected)
    (hs : summarize_text env.client corrected = .ok summary)
    (hp : polish_bullets env.client summary = .ok polished) :
    process_youtube env url =
      { response := .ok [("summary", summary), ("polished_summary", polished)]
        events := [.downloadCall url, .transcribeCall (audio_path env),
                   .removeFileCall (audio_path env),
                   .correctCall (pyStrip text), .summarizeCall corrected,
                   .polishCall summary]
        files := [] } := by
  unfold process_youtube download_youtube_audio
  simp only [hm, hd, ht, ne_eq, not_true_eq_false, Bool.true_eq_false, if_false,
    reduceIte]
  rw [if_neg hq]
  simp [hc, hs, hp]

/-- Characterization of a run in which the correction call raises. -/
theorem run_correctFail (env : Env) (url text e : String)
    (hm : env.modelLoaded = true) (hd : env.downloadExitCode = 0)
    (ht : env.transcribe (audio_path env) = .ok text)
    (hq : ¬(pyStrip text = "" ∨ (pySplit (pyStrip text)).length < 5))
    (hc : correct_transcript env.client (pyStrip text) = .error e) :
    process_youtube env url =
      { response := .httpError 500 (pipelineFailedDetail e)
        events := [.downloadCall url, .transcribeCall (audio_path env),
                   .removeFileCall (audio_path env), .correctCall (pyStrip text)]
        files := [] } := by
  unfold process_youtube download_youtube_audio
  simp only [hm, hd, ht, ne_eq, not_true_eq_false, Bool.true_eq_false, if_false,
    reduceIte]
  rw [if_neg hq]
  simp [hc]

/-- Characterization of a run in which the summarization call raises. -/
theorem run_summarizeFail (env : Env) (url text corrected e : String)
    (hm : env.modelLoaded = true) (hd : env.downloadExitCode = 0)
    (ht : env.transcribe (audio_path env) = .ok text)
    (hq : ¬(pyStrip text = "" ∨ (pySplit (pyStrip text)).length < 5))
    (hc : correct_transcript env.client (pyStrip text) = .ok corrected)
    (hs : summarize_text env.client corrected = .error e) :
    process_youtube env url =
      { response := .httpError 500 (pipelineFailedDetail e)
        events := [.downloadCall url, .transcribeCall (audio_path env),
                   .removeFileCall (audio_path env), .correctCall (pyStrip text),
                   .summarizeCall corrected]
        files := [] } := by
  unfold process_youtube download_youtube_audio
  simp only [hm, hd, ht, ne_eq, not_true_eq_false, Bool.true_eq_false, if_false,
    reduceIte]
  rw [if_neg hq]
  simp [hc, hs]

/-- Characterization of a run in which the polishing call raises. -/
theorem run_polishFail (env : Env) (url text corrected summary e : String)
    (hm : env.modelLoaded = true) (hd : env.downloadExitCode = 0)
    (ht : env.transcribe (audio_path env) = .ok text)
    (hq : ¬(pyStrip text = "" ∨ (pySplit (pyStrip text)).length < 5))
    (hc : correct_transcript env.client (pyStrip text) = .ok corrected)
    (hs : summarize_text env.client corrected = .ok summary)
    (hp : polish_bullets env.client summary = .error e) :
    process_youtube env url =
      { response := .httpError 500 (pipelineFailedDetail e)
        events := [.downloadCall url, .transcribeCall (audio_path env),
                   .removeFileCall (audio_path env), .correctCall (pyStrip text),
                   .summarizeCall corrected, .polishCall summary]
        files := [] } := by
  unfold process_youtube download_youtube_audio
  simp only [hm, hd, ht, ne_eq, not_true_eq_false, Bool.true_eq_false, if_false,
    reduceIte]
  rw [if_neg hq]
  simp [hc, hs, hp]

/-- Claim C1: for every request whose whitespace-trimmed transcript is empty
or has fewer than 5 whitespace-separated words, `process_youtube` returns
exactly the HTTP 200 body with the single key "polished_summary" set to the
fixed degraded message, and none of the three text-generation operations
(correction, summarization, polishing) is invoked. -/
theorem C1_degraded_gate (env : Env) (url text : String)
    (hm : env.modelLoaded = true) (hd : env.downloadExitCode = 0)
    (ht : env.transcribe (audio_path env) = .ok text)
    (hq : pyStrip text = "" ∨ (pySplit (pyStrip text)).length < 5) :
    (process_youtube env url).response = .ok [("polished_summary", degradedMessage)]
    ∧ (∀ t, Event.correctCall t ∉ (process_youtube env url).events
        ∧ Event.summarizeCall t ∉ (process_youtube env url).events
        ∧ Event.polishCall t ∉ (process_youtube env url).events) := by
  rw [run_degraded env url text hm hd ht hq]
  refine ⟨rfl, fun t => ?_⟩
  simp

/-- Witness for C1 at a concrete one-word transcript environment. -/
theorem C1_witness :
    (process_youtube envShort "u").response = .ok [("polished_summary", degradedMessage)]
    ∧ (∀ t, Event.correctCall t ∉ (process_youtube envShort "u").events
        ∧ Event.summarizeCall t ∉ (process_youtube envShort "u").events
        ∧ Event.polishCall t ∉ (process_youtube envShort "u").events) :=
  C1_degraded_gate envShort "u" "hi" rfl rfl rfl (by decide)

/-- Claim C2: when the trimmed transcript has at least 5 words and the three
text-generation calls succeed, `process_youtube` invokes correction on the
raw transcript, then summarization on the correction output, then polishing
on the summarization output, in that exact order, and returns the body with
"summary" mapped to the summarization output and "polished_summary" mapped
to the polishing output. -/
theorem C2_happy_path_order (env : Env) (url text corrected summary polished : String)
    (hm : env.modelLoaded = true) (hd : env.downloadExitCode = 0)
    (ht : env.transcribe (audio_path env) = .ok text)
    (hq : ¬(pyStrip text = "" ∨ (pySplit (pyStrip text)).length < 5))
    (hc : correct_transcript env.client (pyStrip text) = .ok corrected)
    (hs : summarize_text env.client corrected = .ok summary)
    (hp : polish_bullets env.client summary = .ok polished) :
    (process_youtube env url).response =
      .ok [("summary", summary), ("polished_summary", polished)]
    ∧ (process_youtube env url).events =
        [.downloadCall url, .transcribeCall (audio_path env),
         .removeFileCall (audio_path env), .correctCall (pyStrip text),
         .summarizeCall corrected, .polishCall summary] := by
  rw [run_completed env url text corrected summary polished hm hd ht hq hc hs hp]
  exact ⟨rfl, rfl⟩

/-- Witness for C2 at a concrete all-success environment. -/
theorem C2_witness :
    (process_youtube envHappy "u").response =
      .ok [("summary", "generated"), ("polished_summary", "generated")]
    ∧ (process_youtube envHappy "u").events =
        [.downloadCall "u", .transcribeCall (audio_path envHappy),
         .removeFileCall (audio_path envHappy),
         .correctCall (pyStrip " alpha beta gamma delta epsilon "),
         .summarizeCall "generated", .polishCall "generated"] :=
  C2_happy_path_order envHappy "u" " alpha beta gamma delta epsilon "
    "generated" "generated" "generated" rfl rfl rfl (by decide) rfl rfl rfl

/-- Claim C3: when the download tool exits non-zero, neither transcription
nor any refinement stage is invoked, and the response is an HTTP 500 failure
whose detail carries the "YouTube pipeline failed: " message. -/
theorem C3_fetch_failure (env : Env) (url : String)
    (hm : env.modelLoaded = true) (hd : env.downloadExitCode ≠ 0) :
    (process_youtube env url).response =
      .httpError 500 (pipelineFailedDetail env.downloadErrMsg)
    ∧ (process_youtube env url).events = [.downloadCall url] := by
  rw [run_fetchFail env url hm hd]
  exact ⟨rfl, rfl⟩

/-- Witness for C3 at a concrete failing-download environment. -/
theorem C3_witness :
    (process_youtube envFetchFail "u").response =
      .httpError 500 (pipelineFailedDetail envFetchFail.downloadErrMsg)
    ∧ (process_youtube envFetchFail "u").events = [.downloadCall "u"] :=
  C3_fetch_failure envFetchFail "u" rfl (by decide)

/-- Claim C4: when the speech-recognition model failed to load at startup,
every request fails fast with HTTP 500 and the fixed detail "Whisper model
not loaded", with no download, transcription, or refinement stage run. -/
theorem C4_model_unavailable (env : Env) (url : String)
    (hm : env.modelLoaded = false) :
    process_youtube env url =
      { response := .httpError 500 "Whisper model not loaded"
        events := []
        files := [] } :=
  run_noModel env url hm

/-- Witness for C4 at a concrete model-unavailable environment. -/
theorem C4_witness :
    process_youtube envNoModel "u" =
      { response := .httpError 500 "Whisper model not loaded"
        events := []
        files := [] } :=
  C4_model_unavailable envNoModel "u" rfl

/-- Counterexample to C5 as stated: a fetch failure and a transcription
failure carrying the same underlying message produce byte-for-byte identical
HTTP responses, so a fetch failure has no error kind of its own that would
distinguish it from the generic pipeline-failure error used after the
Fetching stage. -/
theorem C5_counterexample :
    envFetchFail.downloadExitCode ≠ 0
    ∧ envTranscribeFail.downloadExitCode = 0
    ∧ (process_youtube envFetchFail "u").response =
        (process_youtube envTranscribeFail "u").response := by
  refine ⟨by decide, rfl, by decide⟩

/-- Claim C5 (amended): a fetch failure is surfaced through the same generic
pipeline-failure error as failures occurring after the Fetching stage — HTTP
500 with detail "YouTube pipeline failed: " followed by the underlying
message — and is not distinguishable from them by error kind; only
model-unavailability is reported distinctly (HTTP 500 with the fixed detail
"Whisper model not loaded", always distinct from the fetch-failure
response). -/
theorem C5_amended_generic_fetch_error (env env2 : Env) (url url2 : String)
    (hm : env.modelLoaded = true) (hd : env.downloadExitCode ≠ 0)
    (hm2 : env2.modelLoaded = false) :
    (process_youtube env url).response =
      .httpError 500 (pipelineFailedDetail env.downloadErrMsg)
    ∧ (process_youtube env2 url2).response =
        .httpError 500 "Whisper model not loaded"
    ∧ (process_youtube env url).response ≠ (process_youtube env2 url2).response := by
  rw [run_fetchFail env url hm hd, run_noModel env2 url2 hm2]
  refine ⟨rfl, rfl, ?_⟩
  intro h
  injection h with h1 h2
  have hlen := congrArg String.length h2
  rw [pipelineFailedDetail, String.length_append] at hlen
  rw [show ("YouTube pipeline failed: ").length = 25 from rfl] at hlen
  rw [show ("Whisper model not loaded").length = 24 from rfl] at hlen
  omega

/-- Witness for the amended C5 at concrete environments. -/
theorem C5_witness :
    (process_youtube envFetchFail "w").response =
      .httpError 500 (pipelineFailedDetail envFetchFail.downloadErrMsg)
    ∧ (process_youtube envNoModel "w").response =
        .httpError 500 "Whisper model not loaded"
    ∧ (process_youtube envFetchFail "w").response ≠
        (process_youtube envNoModel "w").response :=
  C5_amended_generic_fetch_error envFetchFail envNoModel "w" "w" rfl (by decide) rfl

/-- Claim C6: whenever transcription succeeds, the temporary audio file is
deleted before the quality gate is evaluated — the first three external
operations are download, transcribe, remove-file, and no file is left on
storage — regardless of whether the transcript passes the 5-word gate, of the
degraded response, or of any later refinement outcome. -/
theorem C6_cleanup_before_gate (env : Env) (url text : String)
    (hm : env.modelLoaded = true) (hd : env.downloadExitCode = 0)
    (ht : env.transcribe (audio_path env) = .ok text) :
    (process_youtube env url).files = []
    ∧ (process_youtube env url).events.take 3 =
        [.downloadCall url, .transcribeCall (audio_path env),
         .removeFileCall (audio_path env)] := by
  by_cases hq : pyStrip text = "" ∨ (pySplit (pyStrip text)).length < 5
  · rw [run_degraded env url text hm hd ht hq]; exact ⟨rfl, rfl⟩
  · cases hc : correct_transcript env.client (pyStrip text) with
    | error e => rw [run_correctFail env url text e hm hd ht hq hc]; exact ⟨rfl, rfl⟩
    | ok corrected =>
      cases hs : summarize_text env.client corrected with
      | error e =>
        rw [run_summarizeFail env url text corrected e hm hd ht hq hc hs]
        exact ⟨rfl, rfl⟩
      | ok summary =>
        cases hp : polish_bullets env.client summary with
        | error e =>
          rw [run_polishFail env url text corrected summary e hm hd ht hq hc hs hp]
          exact ⟨rfl, rfl⟩
        | ok polished =>
          rw [run_completed env url text corrected summary polished hm hd ht hq hc hs hp]
          exact ⟨rfl, rfl⟩

/-- Witness for C6 at a concrete all-success environment. -/
theorem C6_witness :
    (process_youtube envHappy "u").files = []
    ∧ (process_youtube envHappy "u").events.take 3 =
        [.downloadCall "u", .transcribeCall (audio_path envHappy),
         .removeFileCall (audio_path envHappy)] :=
  C6_cleanup_before_gate envHappy "u" " alpha beta gamma delta epsilon " rfl rfl rfl

/-- Claim C7: every HTTP 200 body produced by `process_youtube` is either the
normal-path object with exactly the keys "summary" and "polished_summary" (in
particular no field carries the corrected intermediate text) or the exact
degraded object, a single "polished_summary" key bound to the fixed degraded
message (in particular no "summary" key). -/
theorem C7_response_shape (env : Env) (url : String)
    (body : List (String × String))
    (h : (process_youtube env url).response = .ok body) :
    body.map Prod.fst = ["summary", "polished_summary"]
    ∨ body = [("polished_summary", degradedMessage)] := by
  cases hm : env.modelLoaded with
  | false => rw [run_noModel env url hm] at h; exact absurd h (by simp)
  | true =>
    by_cases hd0 : env.downloadExitCode = 0
    · cases ht : env.transcribe (audio_path env) with
      | error e => rw [run_transcribeFail env url e hm hd0 ht] at h; exact absurd h (by simp)
      | ok text =>
        by_cases hq : pyStrip text = "" ∨ (pySplit (pyStrip text)).length < 5
        · rw [run_degraded env url text hm hd0 ht hq] at h
          simp only [HttpOutcome.ok.injEq] at h
          exact Or.inr h.symm
        · cases hc : correct_transcript env.client (pyStrip text) with
          | error e =>
            rw [run_correctFail env url text e hm hd0 ht hq hc] at h
            exact absurd h (by simp)
          | ok corrected =>
            cases hs : summarize_text env.client corrected with
            | error e =>
              rw [run_summarizeFail env url text corrected e hm hd0 ht hq hc hs] at h
              exact absurd h (by simp)
            | ok summary =>
              cases hp : polish_bullets env.client summary with
              | error e =>
                rw [run_polishFail env url text corrected summary e hm hd0 ht hq hc hs hp] at h
                exact absurd h (by simp)
              | ok polished =>
                rw [run_completed env url text corrected summary polished hm hd0 ht hq hc hs hp] at h
                simp only [HttpOutcome.ok.injEq] at h
                subst h
                exact Or.inl rfl
    · rw [run_fetchFail env url hm hd0] at h
      exact absurd h (by simp)

/-- Witness for C7 at a concrete degraded-path environment. -/
theorem C7_witness :
    ([("polished_summary", degradedMessage)] : List (String × String)).map Prod.fst
        = ["summary", "polished_summary"]
    ∨ ([("polished_summary", degradedMessage)] : List (String × String))
        = [("polished_summary", degradedMessage)] :=
  C7_response_shape envShort "u" [("polished_summary", degradedMessage)] (by decide)

/-- Claim C8: two runs with identical input and identical external-capability
responses (model availability, temp path material, download outcome,
transcription oracle, chat client) produce the same output at each refinement
stage and an identical overall pipeline result — the pipeline itself
introduces no nondeterminism. -/
theorem C8_deterministic (e1 e2 : Env) (url : String)
    (h1 : e1.modelLoaded = e2.modelLoaded)
    (h2 : e1.tmpDir = e2.tmpDir)
    (h3 : e1.uuidStr = e2.uuidStr)
    (h4 : e1.downloadExitCode = e2.downloadExitCode)
    (h5 : e1.downloadErrMsg = e2.downloadErrMsg)
    (h6 : ∀ p, e1.transcribe p = e2.transcribe p)
    (h7 : ∀ r, e1.client r = e2.client r) :
    (∀ t, correct_transcript e1.client t = correct_transcript e2.client t)
    ∧ (∀ t, summarize_text e1.client t = summarize_text e2.client t)
    ∧ (∀ t, polish_bullets e1.client t = polish_bullets e2.client t)
    ∧ process_youtube e1 url = process_youtube e2 url := by
  obtain ⟨m1, td1, u1, dc1, dm1, tr1, cl1⟩ := e1
  obtain ⟨m2, td2, u2, dc2, dm2, tr2, cl2⟩ := e2
  dsimp only at h1 h2 h3 h4 h5 h6 h7
  subst h1 h2 h3 h4 h5
  have htr : tr1 = tr2 := funext h6
  have hcl : cl1 = cl2 := funext h7
  subst htr hcl
  exact ⟨fun t => rfl, fun t => rfl, fun t => rfl, rfl⟩

/-- Witness for C8 at a concrete environment compared with itself. -/
theorem C8_witness :
    (∀ t, correct_transcript envHappy.client t = correct_transcript envHappy.client t)
    ∧ (∀ t, summarize_text envHappy.client t = summarize_text envHappy.client t)
    ∧ (∀ t, polish_bullets envHappy.client t = polish_bullets envHappy.client t)
    ∧ process_youtube envHappy "u" = process_youtube envHappy "u" :=
  C8_deterministic envHappy envHappy "u" rfl rfl rfl rfl rfl
    (fun _ => rfl) (fun _ => rfl)

set_option maxRecDepth 4000 in
/-- Claim C9: each refinement role issues its chat request with the same
fixed output-length cap of 1000 tokens, the same fixed model identifier, a
fixed role-specific system instruction (independent of the input text) and a
user-prompt template determined only by the role and input text, and returns
the generated content of the first completion choice. -/
theorem C9_stage_requests (t tt : String) (client : ChatClient)
    (c : ChatChoice) (rest : List ChatChoice) :
    ((correctRequest t).max_tokens = 1000
      ∧ (summarizeRequest t).max_tokens = 1000
      ∧ (polishRequest t).max_tokens = 1000)
    ∧ ((correctRequest t).model = chatModelName
      ∧ (summarizeRequest t).model = chatModelName
      ∧ (polishRequest t).model = chatModelName)
    ∧ ((correctRequest t).messages =
        [⟨"system", "You are a transcription corrector."⟩, ⟨"user", correctPrompt t⟩]
      ∧ (summarizeRequest t).messages =
        [⟨"system", "You are an expert summarizer."⟩, ⟨"user", summarizePrompt t⟩]
      ∧ (polishRequest t).messages =
        [⟨"system", "You are a bullet point refiner."⟩, ⟨"user", polishPrompt t⟩])
    ∧ ((correctRequest t).messages.head? = (correctRequest tt).messages.head?
      ∧ (summarizeRequest t).messages.head? = (summarizeRequest tt).messages.head?
      ∧ (polishRequest t).messages.head? = (polishRequest tt).messages.head?)
    ∧ ((client (correctRequest t) = .ok ⟨c :: rest⟩ →
          correct_transcript client t = .ok c.message.content)
      ∧ (client (summarizeRequest t) = .ok ⟨c :: rest⟩ →
          summarize_text client t = .ok c.message.content)
      ∧ (client (polishRequest t) = .ok ⟨c :: rest⟩ →
          polish_bullets client t = .ok c.message.content)) := by
  refine ⟨⟨rfl, rfl, rfl⟩, ⟨rfl, rfl, rfl⟩, ⟨rfl, rfl, rfl⟩, ⟨rfl, rfl, rfl⟩,
    ⟨?_, ?_, ?_⟩⟩
  · intro h; unfold correct_transcript; rw [h]; rfl
  · intro h; unfold summarize_text; rw [h]; rfl
  · intro h; unfold polish_bullets; rw [h]; rfl

/-- Witness for C9 at concrete inputs and a concrete client. -/
theorem C9_witness :
    (correctRequest "a").max_tokens = 1000
    ∧ correct_transcript okClient "a" = .ok "generated"
    ∧ summarize_text okClient "a" = .ok "generated"
    ∧ polish_bullets okClient "a" = .ok "generated" := by
  obtain ⟨⟨h1, _, _⟩, _, _, _, hc, hs, hp⟩ :=
    C9_stage_requests "a" "b" okClient ⟨⟨"generated"⟩⟩ []
  exact ⟨h1, hc rfl, hs rfl, hp rfl⟩

/-- Claim C10: when the download succeeds but the transcription call raises,
the handler performs no file cleanup — the temporary audio file remains on
local storage after the HTTP 500 response is produced, and no remove-file
operation ever appears in the trace. -/
theorem C10_leak_on_transcription_failure (env : Env) (url e : String)
    (hm : env.modelLoaded = true) (hd : env.downloadExitCode = 0)
    (ht : env.transcribe (audio_path env) = .error e) :
    (process_youtube env url).files = [audio_path env]
    ∧ (process_youtube env url).response = .httpError 500 (pipelineFailedDetail e)
    ∧ ∀ p, Event.removeFileCall p ∉ (process_youtube env url).events := by
  rw [run_transcribeFail env url e hm hd ht]
  refine ⟨rfl, rfl, fun p => ?_⟩
  simp

/-- Witness for C10 at a concrete failing-transcription environment. -/
theorem C10_witness :
    (process_youtube envTranscribeFail "u").files = [audio_path envTranscribeFail]
    ∧ (process_youtube envTranscribeFail "u").response =
        .httpError 500 (pipelineFailedDetail "boom")
    ∧ ∀ p, Event.removeFileCall p ∉ (process_youtube envTranscribeFail "u").events :=
  C10_leak_on_transcription_failure envTranscribeFail "u" "boom" rfl rfl rfl
